import Mathlib

/-!
Verification of the appliance-parts routing agent.

Shallow embedding of the resolution-and-routing pipeline implemented in
`app/agent/router.py` (class `ApplianceAgent`) and `app/agent/planner.py`
(class `ClaudePlanner`).

Modelling conventions:
* Python strings are Lean `String` (a wrapper around `List Char`); the
  embedding is faithful for ASCII text (Python `str.upper`, `str.lower`
  and the `\w` character class are Unicode-aware, but every identifier,
  keyword list and pattern in the source is ASCII).
* Python `None`-able strings are `Option String`; Python truthiness of
  such a value (`if x:`) is `truthy`: `none` and `some ""` are falsy.
* Python floats are modelled as rationals (`ℚ`); every constant in the
  source (0.55, 0.60, 0.08, ...) is decimal and exactly representable.
* The regex searches in the source (`\bPS\d{5,}\b`, `\b[A-Z0-9]{6,15}\b`
  and the word-bounded back-reference / keyword phrases) are embedded by
  their exact semantics on ASCII text: because both patterns consist of
  word characters flanked by `\b`, a match is precisely a maximal run of
  word characters (`[A-Za-z0-9_]`) of the given shape, and `re.search`
  returns the leftmost one.  The phrase patterns are embedded by a direct
  scan for a word-bounded occurrence.
* The external classifier (AWS Bedrock call + JSON parse + validate) is a
  parameter `classify : String → Except String Plan`; an `Except.error`
  models any exception raised in `_call_bedrock`, `_parse_response` or
  `_validate_plan` (all of which the source catches).
* Dictionaries (`state["part_id_map"]`, `state["model_id_to_parts_map"]`,
  the planner cache) are association lists with `List.lookup`.
-/

namespace Agent

/-! ## String helpers (Python `.upper()`, `.lower()`, `.strip()`, truthiness) -/

/-- Python truthiness of an optional string: `None` and `""` are falsy. -/
def truthy : Option String → Bool
  | none => false
  | some s => !s.data.isEmpty

/-- Python `a or b` for optional strings: `a` when truthy, else `b`. -/
def pyOr (a b : Option String) : Option String :=
  if truthy a then a else b

/-- Python `str.upper()` (ASCII). -/
def upperStr (s : String) : String := String.mk (s.data.map Char.toUpper)

/-- Python `str.lower()` (ASCII). -/
def lowerStr (s : String) : String := String.mk (s.data.map Char.toLower)

/-- Whitespace stripped by Python `str.strip()` (ASCII subset). -/
def isSpaceChar (c : Char) : Bool :=
  c == ' ' || c == '\t' || c == '\n' || c == '\r' || c == '\x0b' || c == '\x0c'

/-- Drop leading and trailing whitespace from a character list. -/
def trimChars (l : List Char) : List Char :=
  ((l.dropWhile isSpaceChar).reverse.dropWhile isSpaceChar).reverse

/-- Python `str.strip()`. -/
def stripStr (s : String) : String := String.mk (trimChars s.data)

/-! ## Regex semantics: word tokens

Both id patterns are runs of word characters flanked by `\b` on each side,
so a match is exactly a maximal run of word characters of the right shape
and `re.search` returns the first such run. -/

/-- Regex word character `\w` (ASCII): letters, digits, underscore. -/
def wordChar (c : Char) : Bool := c.isAlphanum || c == '_'

/-- Split a character list into its maximal runs of word characters.
`acc` holds the current run, reversed. -/
def tokensAux : List Char → List Char → List (List Char)
  | acc, [] => if acc.isEmpty then [] else [acc.reverse]
  | acc, c :: cs =>
    if wordChar c then tokensAux (c :: acc) cs
    else if acc.isEmpty then tokensAux [] cs
    else acc.reverse :: tokensAux [] cs

/-- The maximal word-character runs of a string, in order. -/
def wordTokens (s : String) : List (List Char) := tokensAux [] s.data

/-- Does this token match `PS\d{5,}` exactly (the whole token)? -/
def isPartToken (t : List Char) : Bool :=
  match t with
  | c1 :: c2 :: rest =>
      c1 == 'P' && c2 == 'S' && decide (5 ≤ rest.length) && rest.all Char.isDigit
  | _ => false

/-- Does this token match `[A-Z0-9]{6,15}` exactly (the whole token)?
On uppercased ASCII text, `[A-Z0-9]` is alphanumeric-and-not-underscore. -/
def isModelShape (t : List Char) : Bool :=
  decide (6 ≤ t.length) && decide (t.length ≤ 15) && t.all Char.isAlphanum

/-- Python `s.startswith("PS")`. -/
def startsWithPS (s : String) : Bool :=
  match s.data with
  | 'P' :: 'S' :: _ => true
  | _ => false

/-! ## Word-bounded phrase search

Models a search for word-bounded occurrences of a phrase (the pattern the
source builds by wrapping the escaped phrase in backslash-b anchors) for
the back-reference
phrases and out-of-scope keywords (each begins and ends with a word
character). -/

/-- Is `p` a prefix of `q` (character-wise equality)? -/
def matchesHere : List Char → List Char → Bool
  | [], _ => true
  | _ :: _, [] => false
  | c :: cs, d :: ds => c == d && matchesHere cs ds

/-- Does `p` match at the head of `rest`, with word boundaries on both
sides?  `prev` is the character before `rest` (none at string start). -/
def boundedHere (prev : Option Char) (rest p : List Char) : Bool :=
  matchesHere p rest &&
  (match prev with
   | none => true
   | some c => !wordChar c) &&
  (match rest.drop p.length with
   | [] => true
   | c :: _ => !wordChar c)

/-- Scan `rest` for a word-bounded occurrence of `p`. -/
def searchBoundedAux (p : List Char) : Option Char → List Char → Bool
  | prev, [] => boundedHere prev [] p
  | prev, c :: cs => boundedHere prev (c :: cs) p || searchBoundedAux p (some c) cs

/-- Whether the word-bounded pattern built from the escaped phrase `p`
matches anywhere in `q`. -/
def hasBoundedPhrase (q p : String) : Bool := searchBoundedAux p.data none q.data

/-! ## Data model -/

/-- A part record from `state["part_id_map"]`.  Only the `part_id` field is
consulted by the resolution pipeline (`router.py` line 334); the remaining
fields (title, brand, price, ...) are irrelevant to the claims. -/
structure PartData where
  part_id : String
deriving DecidableEq

/-- The read-only Reference Store: `state["part_id_map"]` and
`state["model_id_to_parts_map"]`, loaded once at startup. -/
structure Store where
  part_id_map : List (String × PartData)
  model_id_to_parts_map : List (String × List String)
deriving DecidableEq

/-- A plan as produced by `ClaudePlanner` (a Python dict; absent keys are
`none`). -/
structure Plan where
  intent : Option String := none
  confidence : Option ℚ := none
  part_id : Option String := none
  model_id : Option String := none
  symptom : Option String := none
  appliance : Option String := none
  brand : Option String := none
  query : Option String := none
deriving DecidableEq

/-- Syntactic candidates from `extract_candidates`. -/
structure Candidates where
  part_id : Option String := none
  model_id : Option String := none
deriving DecidableEq

/-- Session entities (the mutable per-conversation dict).  A missing key
reads as `None` / `False`. -/
structure Session where
  part_id : Option String := none
  model_id : Option String := none
  model_id_valid : Bool := false
  last_symptom : Option String := none
  appliance : Option String := none
  brand : Option String := none
deriving DecidableEq

/-- The empty session (`session_entities.clear()` leaves every key absent). -/
def emptySession : Session := {}

/-- The resolved-entities record built by `validate_and_resolve`. -/
structure Resolved where
  intent : Option String := none
  part_id : Option String := none
  model_id : Option String := none
  symptom : Option String := none
  appliance : Option String := none
  brand : Option String := none
  part_id_valid : Bool := false
  model_id_valid : Bool := false
deriving DecidableEq

/-- Result of `_prefetch_model`. -/
structure ModelInfo where
  model_id : Option String := none
  exists_ : Bool := false
deriving DecidableEq

/-- The `prefetched` dict assembled in `handle_query` (lines 182-185). -/
structure Prefetched where
  part_data : Option PartData := none
  model_info : ModelInfo := {}
deriving DecidableEq

/-! ## Candidate Extractor (`ApplianceAgent.extract_candidates`) -/

/-- `extract_candidates` (router.py lines 276-297): uppercase the stripped
text, take the first `\bPS\d{5,}\b` match as `part_id`, and the first
`\b[A-Z0-9]{6,15}\b` match as `model_id` provided it does not start with
`PS` and is not purely alphabetic. -/
def extract_candidates (text : String) : Candidates :=
  let ts := wordTokens (upperStr (stripStr text))
  let part_id := (ts.find? isPartToken).map (fun t => String.mk t)
  let model_id : Option String :=
    match ts.find? isModelShape with
    | some t =>
        if !startsWithPS (String.mk t) && !(t.all Char.isAlpha) then some (String.mk t)
        else none
    | none => none
  { part_id := part_id, model_id := model_id }

/-! ## Prefetch (`_prefetch_part`, `_prefetch_model`) -/

/-- `_prefetch_part` (router.py lines 588-592). -/
def prefetch_part (store : Store) (part_id : Option String) : Option PartData :=
  if truthy part_id then store.part_id_map.lookup (upperStr (part_id.getD ""))
  else none

/-- `_prefetch_model` (router.py lines 594-603). -/
def prefetch_model (store : Store) (model_id : Option String) : ModelInfo :=
  if truthy model_id then
    let mid := upperStr (model_id.getD "")
    { model_id := some mid,
      exists_ := (store.model_id_to_parts_map.lookup mid).isSome }
  else { model_id := none, exists_ := false }

/-- The `prefetched` dict as built in `handle_query` (lines 170-185): both
prefetches are keyed on the regex candidates. -/
def mkPrefetched (store : Store) (cands : Candidates) : Prefetched :=
  { part_data := prefetch_part store cands.part_id,
    model_info := prefetch_model store cands.model_id }

/-! ## Session-reuse rules (`_should_reuse_session_part` / `_model`) -/

/-- `_should_reuse_session_part` (router.py lines 605-618). -/
def should_reuse_session_part (user_query : String) (intent : Option String) : Bool :=
  if intent == some "symptom_troubleshoot" then false
  else
    let q := lowerStr user_query
    ["this part", "that part", "it", "the part", "same part"].any
      (fun p => hasBoundedPhrase q p)

/-- `_should_reuse_session_model` (router.py lines 620-633). -/
def should_reuse_session_model (user_query : String) (intent : Option String) : Bool :=
  if intent == some "symptom_troubleshoot" then false
  else
    let q := lowerStr user_query
    ["this model", "that model", "my model", "same model", "with it"].any
      (fun p => hasBoundedPhrase q p)

/-! ## Entity Resolver (`ApplianceAgent.validate_and_resolve`) -/

/-- The initial `resolved` dict (router.py lines 311-320). -/
def baseResolved (plan : Plan) : Resolved :=
  { intent := plan.intent,
    part_id := none,
    model_id := none,
    symptom :=
      if plan.intent == some "symptom_troubleshoot" then pyOr plan.query plan.symptom
      else none,
    appliance := plan.appliance,
    brand := plan.brand,
    part_id_valid := false,
    model_id_valid := false }

/-- `candidate_part` selection (router.py lines 325-329): extractor
candidate, else planner part_id, else session part_id when reuse applies. -/
def candidatePartOf (plan : Plan) (cands : Candidates) (sess : Session)
    (user_query : String) : Option String :=
  pyOr cands.part_id (pyOr plan.part_id
    (if should_reuse_session_part user_query plan.intent then sess.part_id else none))

/-- `candidate_model` selection (router.py lines 343-347). -/
def candidateModelOf (plan : Plan) (cands : Candidates) (sess : Session)
    (user_query : String) : Option String :=
  pyOr cands.model_id (pyOr plan.model_id
    (if should_reuse_session_model user_query plan.intent then sess.model_id else none))

/-- `prefetch_part and prefetch_part.get("part_id") == pid`
(router.py line 334; a part record is a non-empty dict, hence truthy). -/
def prefetchHit (pre : Option PartData) (pid : String) : Bool :=
  match pre with
  | some rec => rec.part_id == pid
  | none => false

/-- The part-validation block (router.py lines 331-341). -/
def resolvePart (r : Resolved) (cand : Option String) (pre : Option PartData)
    (store : Store) : Resolved :=
  if truthy cand then
    let pid := upperStr (cand.getD "")
    if prefetchHit pre pid then
      { r with part_id := some pid, part_id_valid := true }
    else if startsWithPS pid && (store.part_id_map.lookup pid).isSome then
      { r with part_id := some pid, part_id_valid := true }
    else r
  else r

/-- The model-validation block (router.py lines 349-364). -/
def resolveModel (r : Resolved) (cand : Option String) (mi : ModelInfo)
    (store : Store) : Resolved :=
  if truthy cand then
    let mid := upperStr (cand.getD "")
    let r1 := { r with model_id := some mid }
    if mi.model_id == some mid then
      if mi.exists_ then { r1 with model_id_valid := true } else r1
    else if (store.model_id_to_parts_map.lookup mid).isSome then
      { r1 with model_id_valid := true }
    else r1
  else r

/-- `validate_and_resolve` (router.py lines 299-366): build the base
record, then run the part block, then the model block. -/
def validate_and_resolve (plan : Plan) (cands : Candidates) (sess : Session)
    (user_query : String) (pre : Prefetched) (store : Store) : Resolved :=
  resolveModel
    (resolvePart (baseResolved plan) (candidatePartOf plan cands sess user_query)
      pre.part_data store)
    (candidateModelOf plan cands sess user_query) pre.model_info store

/-! ## Confidence Scorer (`ApplianceAgent.compute_confidence`) -/

/-- `compute_confidence` (router.py lines 368-405). -/
def compute_confidence (r : Resolved) (plan : Plan) (cands : Candidates)
    (sess : Session) : ℚ :=
  let score : ℚ := 0
  let score := if truthy cands.part_id && truthy r.part_id then score + 1/10 else score
  let score := if truthy cands.model_id && truthy r.model_id then score + 1/10 else score
  let score := if r.part_id_valid then score + 3/20 else score
  let score :=
    if r.model_id_valid then score + 3/20
    else if truthy r.model_id then score + 2/25
    else score
  let score := score + (plan.confidence.getD (1/2)) * (2/5)
  let score := if truthy sess.model_id && truthy r.symptom then score + 1/20 else score
  let score := if truthy sess.last_symptom then score + 1/20 else score
  min score 1

/-! ## Guardrails (`check_scope`, `check_topic_drift`) -/

/-- `VALID_APPLIANCES` (router.py line 23). -/
def VALID_APPLIANCES : List String := ["refrigerator", "dishwasher", "fridge"]

/-- `OUT_OF_SCOPE_KEYWORDS` (router.py lines 24-28). -/
def OUT_OF_SCOPE_KEYWORDS : List String :=
  ["oven", "stove", "range", "microwave", "dryer",
   "washing machine", "clothes washer", "clothes dryer", "furnace", "hvac",
   "water heater", "garbage disposal", "air conditioner", "ac"]

/-- `check_scope` (router.py lines 35-71), reduced to its boolean verdict
(the attached message is presentation only). -/
def check_scope (user_query : String) (r : Resolved) : Bool :=
  let query_lower := lowerStr user_query
  if truthy r.appliance then
    VALID_APPLIANCES.contains (lowerStr (r.appliance.getD ""))
  else if truthy r.part_id || truthy r.model_id then true
  else if OUT_OF_SCOPE_KEYWORDS.any (fun k => hasBoundedPhrase query_lower k) then false
  else true

/-- `check_topic_drift` (router.py lines 73-88). -/
def check_topic_drift (sess : Session) (r : Resolved) : Bool :=
  let sa := lowerStr (sess.appliance.getD "")
  match r.appliance with
  | some c => !sa.data.isEmpty && !c.data.isEmpty && sa != lowerStr c
  | none => false

/-! ## Session merge (`merge_state`) and the session effect of a turn -/

/-- `merge_state` (router.py lines 407-424). -/
def merge_state (s : Session) (r : Resolved) : Session :=
  let s := if truthy r.model_id then
      { s with model_id := r.model_id, model_id_valid := r.model_id_valid } else s
  let s := if truthy r.part_id then { s with part_id := r.part_id } else s
  let s := if truthy r.symptom then { s with last_symptom := r.symptom } else s
  let s := if truthy r.appliance then { s with appliance := r.appliance } else s
  if truthy r.brand then { s with brand := r.brand } else s

/-- The effect of one turn of `handle_query` on `session_entities` once a
`resolved` record exists (router.py lines 202-241): an out-of-scope turn
returns early leaving the session untouched; otherwise detected topic
drift clears the session, and the resolved entities are merged in. -/
def sessionUpdate (user_query : String) (sess : Session) (r : Resolved) : Session :=
  if check_scope user_query r then
    merge_state (if check_topic_drift sess r then emptySession else sess) r
  else sess

/-! ## Router (`ApplianceAgent.route`) -/

/-- The routing outcome: which handler `route` dispatches to, with the
arguments it passes (handler bodies are external response composers). -/
inductive Route where
  | part_lookup (part_id : String) (confidence : ℚ)
  | model_required (symptom : String) (appliance brand : Option String) (confidence : ℚ)
  | symptom_validated (symptom model_id : String) (confidence : ℚ)
  | symptom_unvalidated (symptom model_id : String) (confidence : ℚ)
  | compatibility (model_id part_id : String) (confidence : ℚ)
  | compatibility_unvalidated (part_id model_id : String) (confidence : ℚ)
  | issue_required (model_id : String) (confidence : ℚ)
  | clarification (confidence : ℚ)
deriving DecidableEq

/-- `self.confidence_threshold` (router.py line 33). -/
def confidence_threshold : ℚ := 11/20

/-- `intent in ["part_lookup", "install_help"]`. -/
def partLookupIntent (i : Option String) : Bool :=
  i == some "part_lookup" || i == some "install_help"

/-- `route` (router.py lines 426-548). -/
def route (r : Resolved) (sess : Session) (confidence : ℚ) : Route :=
  if truthy r.part_id && r.part_id_valid && partLookupIntent r.intent then
    Route.part_lookup (r.part_id.getD "") confidence
  else if confidence < confidence_threshold then
    if truthy r.symptom && !truthy r.model_id then
      Route.model_required (r.symptom.getD "") r.appliance r.brand
        (max confidence (11/20))
    else if truthy r.symptom && truthy r.model_id && !r.model_id_valid then
      Route.symptom_unvalidated (r.symptom.getD "") (r.model_id.getD "")
        (max confidence (3/5))
    else
      Route.clarification confidence
  else if truthy r.part_id && partLookupIntent r.intent then
    Route.part_lookup (r.part_id.getD "") confidence
  else if r.intent == some "compatibility_check" && truthy r.part_id && truthy r.model_id then
    if !r.model_id_valid then
      Route.compatibility_unvalidated (r.part_id.getD "") (r.model_id.getD "") confidence
    else
      Route.compatibility (r.model_id.getD "") (r.part_id.getD "") confidence
  else if truthy r.symptom then
    if !truthy r.model_id then
      Route.model_required (r.symptom.getD "") r.appliance r.brand confidence
    else if r.model_id_valid then
      Route.symptom_validated (r.symptom.getD "") (r.model_id.getD "") confidence
    else
      Route.symptom_unvalidated (r.symptom.getD "") (r.model_id.getD "")
        (max confidence (3/5))
  else if truthy r.model_id && !truthy r.symptom then
    if truthy sess.last_symptom then
      if r.model_id_valid then
        Route.symptom_validated (sess.last_symptom.getD "") (r.model_id.getD "") confidence
      else
        Route.symptom_unvalidated (sess.last_symptom.getD "") (r.model_id.getD "")
          (max confidence (3/5))
    else Route.issue_required (r.model_id.getD "") confidence
  else
    Route.clarification confidence

/-! ## Planner (`ClaudePlanner.plan`, `_fallback_plan`) -/

/-- The `model_id` local of `_fallback_plan` (planner.py lines 283-287):
the first model-shaped run, kept only if it is not a part id and not pure
letters. -/
def fallback_model_id (user_input : String) : Option String :=
  match (wordTokens (upperStr (stripStr user_input))).find? isModelShape with
  | some t =>
      if !startsWithPS (String.mk t) && !(t.all Char.isAlpha) then some (String.mk t)
      else none
  | none => none

/-- The `query` field of `_fallback_plan` (planner.py lines 298 and 309). -/
def fallback_query (user_input : String) : Option String :=
  if user_input.data.isEmpty then none else some (stripStr (lowerStr user_input))

/-- `_fallback_plan` (planner.py lines 277-310): regex-extract a part id
and a model-like token from the stripped, uppercased input; part hit gives
intent `part_lookup` at 0.55, otherwise `general_question` at 0.3. -/
def fallback_plan (user_input : String) : Plan :=
  match (wordTokens (upperStr (stripStr user_input))).find? isPartToken with
  | some t =>
      { intent := some "part_lookup", confidence := some (11/20),
        part_id := some (String.mk t), model_id := fallback_model_id user_input,
        symptom := none, appliance := none, brand := none,
        query := fallback_query user_input }
  | none =>
      { intent := some "general_question", confidence := some (3/10),
        part_id := none, model_id := fallback_model_id user_input,
        symptom := none, appliance := none, brand := none,
        query := fallback_query user_input }

/-- The cache key of `plan` (planner.py line 145): an MD5 digest of the
lowercased, stripped input.  The digest itself is injective on the inputs
the cache distinguishes, so the key is modelled as the normalized text. -/
def normalizeKey (input : String) : String := stripStr (lowerStr input)

/-- Planner state: the in-memory cache and the number of external
classifier invocations made so far. -/
structure PlannerState where
  cache : List (String × Plan) := []
  calls : Nat := 0
deriving DecidableEq

/-- `ClaudePlanner.plan` (planner.py lines 133-178) as one step of a state
machine.  `classify` bundles `_call_bedrock` + `_parse_response` +
`_validate_plan`; `Except.error` models any exception raised there.  On a
cache hit the cached plan is returned with no external call; on a miss the
classifier is invoked (counted), a successful plan is cached only while
the cache holds fewer than 1000 entries, and a failure degrades to
`fallback_plan`, which is never cached. -/
def plannerPlanStep (classify : String → Except String Plan)
    (st : PlannerState) (input : String) : Plan × PlannerState :=
  let key := normalizeKey input
  match st.cache.lookup key with
  | some cached => (cached, st)
  | none =>
      match classify input with
      | Except.ok plan =>
          (plan,
           { cache := if st.cache.length < 1000 then (key, plan) :: st.cache else st.cache,
             calls := st.calls + 1 })
      | Except.error _ =>
          (fallback_plan input, { st with calls := st.calls + 1 })

end Agent

/-! # Helper lemmas -/

namespace Agent

theorem truthy_none : truthy none = false := rfl

theorem truthy_some (s : String) : truthy (some s) = !s.data.isEmpty := rfl

theorem truthy_eq_true_iff (o : Option String) :
    truthy o = true ↔ ∃ s, o = some s ∧ s.data ≠ [] := by
  cases o with
  | none => simp [truthy]
  | some s => simp [truthy]

theorem pyOr_of_truthy {a b : Option String} (h : truthy a = true) : pyOr a b = a := by
  simp [pyOr, h]

theorem pyOr_of_not_truthy {a b : Option String} (h : truthy a = false) : pyOr a b = b := by
  simp [pyOr, h]

theorem upperStr_data (s : String) : (upperStr s).data = s.data.map Char.toUpper := rfl

theorem upperStr_ne_empty {s : String} (h : s.data ≠ []) : (upperStr s).data ≠ [] := by
  simp [upperStr_data]
  exact h

theorem partLookupIntent_eq_true_iff (i : Option String) :
    partLookupIntent i = true ↔ i = some "part_lookup" ∨ i = some "install_help" := by
  simp [partLookupIntent]

end Agent

namespace Agent

theorem resolvePart_of_not_truthy {r : Resolved} {cand : Option String}
    {pre : Option PartData} {store : Store} (h : truthy cand = false) :
    resolvePart r cand pre store = r := by
  simp [resolvePart, h]

theorem resolvePart_of_hit {r : Resolved} {cand : Option String}
    {pre : Option PartData} {store : Store} (h : truthy cand = true)
    (hh : prefetchHit pre (upperStr (cand.getD "")) = true) :
    resolvePart r cand pre store =
      { r with part_id := some (upperStr (cand.getD "")), part_id_valid := true } := by
  simp [resolvePart, h, hh]

theorem resolvePart_of_direct {r : Resolved} {cand : Option String}
    {pre : Option PartData} {store : Store} (h : truthy cand = true)
    (hh : prefetchHit pre (upperStr (cand.getD "")) = false)
    (hd : (startsWithPS (upperStr (cand.getD "")) &&
           (store.part_id_map.lookup (upperStr (cand.getD ""))).isSome) = true) :
    resolvePart r cand pre store =
      { r with part_id := some (upperStr (cand.getD "")), part_id_valid := true } := by
  simp only [resolvePart, h, if_true, hh, Bool.false_eq_true, if_false, hd]

theorem resolvePart_of_miss {r : Resolved} {cand : Option String}
    {pre : Option PartData} {store : Store} (h : truthy cand = true)
    (hh : prefetchHit pre (upperStr (cand.getD "")) = false)
    (hd : (startsWithPS (upperStr (cand.getD "")) &&
           (store.part_id_map.lookup (upperStr (cand.getD ""))).isSome) = false) :
    resolvePart r cand pre store = r := by
  simp only [resolvePart, h, if_true, hh, Bool.false_eq_true, if_false, hd]

theorem resolvePart_model_id (r : Resolved) (cand : Option String)
    (pre : Option PartData) (store : Store) :
    (resolvePart r cand pre store).model_id = r.model_id := by
  simp only [resolvePart]
  split <;> try rfl
  split <;> try rfl
  split <;> rfl

theorem resolvePart_model_id_valid (r : Resolved) (cand : Option String)
    (pre : Option PartData) (store : Store) :
    (resolvePart r cand pre store).model_id_valid = r.model_id_valid := by
  simp only [resolvePart]
  split <;> try rfl
  split <;> try rfl
  split <;> rfl

theorem resolveModel_part_id (r : Resolved) (cand : Option String)
    (mi : ModelInfo) (store : Store) :
    (resolveModel r cand mi store).part_id = r.part_id := by
  simp only [resolveModel]
  split <;> try rfl
  split
  · split <;> rfl
  · split <;> rfl

theorem resolveModel_part_id_valid (r : Resolved) (cand : Option String)
    (mi : ModelInfo) (store : Store) :
    (resolveModel r cand mi store).part_id_valid = r.part_id_valid := by
  simp only [resolveModel]
  split <;> try rfl
  split
  · split <;> rfl
  · split <;> rfl

theorem resolveModel_of_not_truthy {r : Resolved} {cand : Option String}
    {mi : ModelInfo} {store : Store} (h : truthy cand = false) :
    resolveModel r cand mi store = r := by
  simp [resolveModel, h]

theorem resolveModel_model_id_of_truthy {r : Resolved} {cand : Option String}
    {mi : ModelInfo} {store : Store} (h : truthy cand = true) :
    (resolveModel r cand mi store).model_id = some (upperStr (cand.getD "")) := by
  simp only [resolveModel, h, if_true]
  split
  · split <;> rfl
  · split <;> rfl

theorem resolveModel_valid_sources {r : Resolved} {cand : Option String}
    {mi : ModelInfo} {store : Store} (h : truthy cand = true)
    (hv : (resolveModel r cand mi store).model_id_valid = true) :
    (mi.model_id = some (upperStr (cand.getD "")) ∧ mi.exists_ = true)
    ∨ (store.model_id_to_parts_map.lookup (upperStr (cand.getD ""))).isSome = true
    ∨ r.model_id_valid = true := by
  simp only [resolveModel, h, if_true] at hv
  by_cases hbeq : mi.model_id == some (upperStr (cand.getD ""))
  · simp only [hbeq, if_true] at hv
    by_cases hex : mi.exists_ = true
    · exact Or.inl ⟨by simpa using hbeq, hex⟩
    · simp only [Bool.not_eq_true] at hex
      simp [hex] at hv
      exact Or.inr (Or.inr hv)
  · simp only [Bool.not_eq_true] at hbeq
    simp only [hbeq, Bool.false_eq_true, if_false] at hv
    by_cases hl : (store.model_id_to_parts_map.lookup (upperStr (cand.getD ""))).isSome = true
    · exact Or.inr (Or.inl hl)
    · simp only [Bool.not_eq_true] at hl
      simp [hl] at hv
      exact Or.inr (Or.inr hv)

theorem prefetch_part_eq_some {store : Store} {pid? : Option String} {rec : PartData}
    (h : prefetch_part store pid? = some rec) :
    truthy pid? = true ∧
    store.part_id_map.lookup (upperStr (pid?.getD "")) = some rec := by
  by_cases ht : truthy pid? = true
  · refine ⟨ht, ?_⟩
    simpa [prefetch_part, ht] using h
  · simp only [Bool.not_eq_true] at ht
    simp [prefetch_part, ht] at h

theorem prefetchHit_eq_true {pre : Option PartData} {pid : String}
    (h : prefetchHit pre pid = true) :
    ∃ rec, pre = some rec ∧ rec.part_id = pid := by
  cases pre with
  | none => simp [prefetchHit] at h
  | some rec => exact ⟨rec, rfl, by simpa [prefetchHit] using h⟩

theorem prefetch_model_of_truthy {store : Store} {mid? : Option String}
    (h : truthy mid? = true) :
    prefetch_model store mid? =
      { model_id := some (upperStr (mid?.getD "")),
        exists_ := (store.model_id_to_parts_map.lookup (upperStr (mid?.getD ""))).isSome } := by
  simp [prefetch_model, h]

theorem prefetch_model_of_not_truthy {store : Store} {mid? : Option String}
    (h : truthy mid? = false) :
    prefetch_model store mid? = { model_id := none, exists_ := false } := by
  simp [prefetch_model, h]

end Agent

namespace Agent

set_option maxHeartbeats 1600000 in
/-- C3: `compute_confidence` returns `min 1 s` where `s` is the additive
sum of: 0.10 when both the candidate and the resolved part id are present,
0.10 likewise for the model id, 0.15 when the part id is validated, 0.15
when the model id is validated and otherwise 0.08 when a model id is
present, the plan confidence (0.5 when absent) times 0.4, 0.05 when the
session carries a model id and a symptom was resolved, and 0.05 when the
session carries a prior symptom; the result lies in `[0, 1]`.  Presence of
an optional string field is the truthiness the source tests with `if x:`.
The lower bound uses the Plan contract that the planner self-confidence is
non-negative (`_validate_plan` clamps it to `[0, 1]`, and the fallback and
fast-follow-up plans use the constants 0.55, 0.3 and 0.9). -/
theorem c3_compute_confidence_spec (r : Resolved) (plan : Plan)
    (cands : Candidates) (sess : Session)
    (hconf : 0 ≤ plan.confidence.getD (1/2)) :
    compute_confidence r plan cands sess =
      min 1 ((if truthy cands.part_id = true ∧ truthy r.part_id = true then (1:ℚ)/10 else 0)
        + (if truthy cands.model_id = true ∧ truthy r.model_id = true then (1:ℚ)/10 else 0)
        + (if r.part_id_valid = true then (3:ℚ)/20 else 0)
        + (if r.model_id_valid = true then (3:ℚ)/20 else
            if truthy r.model_id = true then (2:ℚ)/25 else 0)
        + plan.confidence.getD (1/2) * (2/5)
        + (if truthy sess.model_id = true ∧ truthy r.symptom = true then (1:ℚ)/20 else 0)
        + (if truthy sess.last_symptom = true then (1:ℚ)/20 else 0))
    ∧ 0 ≤ compute_confidence r plan cands sess
    ∧ compute_confidence r plan cands sess ≤ 1 := by
  refine ⟨?_, ?_, ?_⟩
  · simp only [compute_confidence, Bool.and_eq_true]
    rw [min_comm]
    congr 1
    split_ifs <;> ring
  · simp only [compute_confidence]
    refine le_min ?_ zero_le_one
    split_ifs <;> linarith
  · simp only [compute_confidence]
    exact min_le_right _ _

/-- Witness for C3 at a concrete record set: a validated part with planner
confidence 0.9 scores within the bounds. -/
theorem c3_compute_confidence_spec_witness :
    0 ≤ compute_confidence
        { part_id := some "PS11752778", part_id_valid := true }
        { confidence := some ((9:ℚ)/10) }
        { part_id := some "PS11752778" } {}
    ∧ compute_confidence
        { part_id := some "PS11752778", part_id_valid := true }
        { confidence := some ((9:ℚ)/10) }
        { part_id := some "PS11752778" } {} ≤ 1 :=
  ⟨(c3_compute_confidence_spec
      { part_id := some "PS11752778", part_id_valid := true }
      { confidence := some ((9:ℚ)/10) }
      { part_id := some "PS11752778" } {} (by norm_num)).2.1,
   (c3_compute_confidence_spec
      { part_id := some "PS11752778", part_id_valid := true }
      { confidence := some ((9:ℚ)/10) }
      { part_id := some "PS11752778" } {} (by norm_num)).2.2⟩

end Agent

namespace Agent

theorem resolvePart_part_cases (r : Resolved) (cand : Option String)
    (pre : Option PartData) (store : Store) :
    resolvePart r cand pre store = r ∨
    (truthy cand = true ∧
     resolvePart r cand pre store =
       { r with part_id := some (upperStr (cand.getD "")), part_id_valid := true }) := by
  by_cases ht : truthy cand = true
  · by_cases hh : prefetchHit pre (upperStr (cand.getD "")) = true
    · exact Or.inr ⟨ht, resolvePart_of_hit ht hh⟩
    · simp only [Bool.not_eq_true] at hh
      by_cases hd : (startsWithPS (upperStr (cand.getD "")) &&
          (store.part_id_map.lookup (upperStr (cand.getD ""))).isSome) = true
      · exact Or.inr ⟨ht, resolvePart_of_direct ht hh hd⟩
      · simp only [Bool.not_eq_true] at hd
        exact Or.inl (resolvePart_of_miss ht hh hd)
  · simp only [Bool.not_eq_true] at ht
    exact Or.inl (resolvePart_of_not_truthy ht)

theorem validate_and_resolve_part_some {plan : Plan} {cands : Candidates}
    {sess : Session} {q : String} {pre : Prefetched} {store : Store} {p : String}
    (h : (validate_and_resolve plan cands sess q pre store).part_id = some p) :
    p = upperStr ((candidatePartOf plan cands sess q).getD "") ∧ p.data ≠ [] := by
  rw [validate_and_resolve, resolveModel_part_id] at h
  rcases resolvePart_part_cases (baseResolved plan) (candidatePartOf plan cands sess q)
      pre.part_data store with hc | ⟨ht, hc⟩
  · rw [hc] at h
    simp [baseResolved] at h
  · rw [hc] at h
    simp only [Option.some.injEq] at h
    obtain ⟨s, hs, hsne⟩ := (truthy_eq_true_iff _).mp ht
    subst h
    refine ⟨rfl, ?_⟩
    rw [hs]
    exact upperStr_ne_empty hsne

/-- C1 (`router.py` lines 441-443): for every record produced by
`validate_and_resolve` whose `part_id` is non-null with
`part_id_valid = true` and whose intent is `part_lookup` or `install_help`,
`route` takes the priority shortcut to the part-lookup handler for every
confidence value, in particular below the 0.55 threshold. -/
theorem c1_priority_shortcut (plan : Plan) (cands : Candidates) (sess : Session)
    (q : String) (pre : Prefetched) (store : Store) (sess2 : Session)
    (conf : ℚ) (p : String)
    (hp : (validate_and_resolve plan cands sess q pre store).part_id = some p)
    (hv : (validate_and_resolve plan cands sess q pre store).part_id_valid = true)
    (hi : (validate_and_resolve plan cands sess q pre store).intent = some "part_lookup"
        ∨ (validate_and_resolve plan cands sess q pre store).intent = some "install_help") :
    route (validate_and_resolve plan cands sess q pre store) sess2 conf =
      Route.part_lookup p conf := by
  have hne : p.data ≠ [] := (validate_and_resolve_part_some hp).2
  have htr : truthy (validate_and_resolve plan cands sess q pre store).part_id = true := by
    rw [hp]
    simpa [truthy] using hne
  have hint : partLookupIntent (validate_and_resolve plan cands sess q pre store).intent
      = true := (partLookupIntent_eq_true_iff _).mpr hi
  have hcond : (truthy (validate_and_resolve plan cands sess q pre store).part_id &&
      (validate_and_resolve plan cands sess q pre store).part_id_valid &&
      partLookupIntent (validate_and_resolve plan cands sess q pre store).intent) = true := by
    rw [htr, hv, hint]
    rfl
  simp only [route, hcond, if_true]
  rw [hp]
  rfl

/-- Witness for C1: part `PS11752778` present in the store, intent
`part_lookup`, and a confidence of 0.3 (below the threshold) still routes
to the part-lookup handler. -/
theorem c1_priority_shortcut_witness :
    route
      (validate_and_resolve
        { intent := some "part_lookup", confidence := some ((3:ℚ)/10) }
        { part_id := some "PS11752778" }
        {} "How do I install part PS11752778?"
        (mkPrefetched
          { part_id_map := [("PS11752778", { part_id := "PS11752778" })],
            model_id_to_parts_map := [] }
          { part_id := some "PS11752778" })
        { part_id_map := [("PS11752778", { part_id := "PS11752778" })],
          model_id_to_parts_map := [] })
      {} ((3:ℚ)/10) = Route.part_lookup "PS11752778" ((3:ℚ)/10) :=
  c1_priority_shortcut
    { intent := some "part_lookup", confidence := some ((3:ℚ)/10) }
    { part_id := some "PS11752778" }
    {} "How do I install part PS11752778?"
    (mkPrefetched
      { part_id_map := [("PS11752778", { part_id := "PS11752778" })],
        model_id_to_parts_map := [] }
      { part_id := some "PS11752778" })
    { part_id_map := [("PS11752778", { part_id := "PS11752778" })],
      model_id_to_parts_map := [] }
    {} ((3:ℚ)/10) "PS11752778" (by decide) (by decide) (Or.inl (by decide))

end Agent

namespace Agent

/-- C2 (`router.py` lines 445-470): when the priority shortcut does not
apply and confidence is below the 0.55 threshold, `route` returns the
model-required response at `max confidence 0.55` when a symptom is present
without a model id; the unvalidated symptom-troubleshoot response at
`max confidence 0.6` (hence at least 0.6) when a symptom and an
unvalidated model id are present; and the generic clarification response
at the unchanged confidence in every other case.  Field presence is the
truthiness the source tests with `if x:`. -/
theorem c2_below_threshold_branches (r : Resolved) (sess : Session) (conf : ℚ)
    (hconf : conf < 11/20)
    (hnp : ¬(truthy r.part_id = true ∧ r.part_id_valid = true ∧
         (r.intent = some "part_lookup" ∨ r.intent = some "install_help"))) :
    (truthy r.symptom = true → truthy r.model_id = false →
      route r sess conf =
        Route.model_required (r.symptom.getD "") r.appliance r.brand
          (max conf (11/20)))
    ∧ (truthy r.symptom = true → truthy r.model_id = true →
        r.model_id_valid = false →
      route r sess conf =
        Route.symptom_unvalidated (r.symptom.getD "") (r.model_id.getD "")
          (max conf (3/5))
      ∧ (3:ℚ)/5 ≤ max conf (3/5))
    ∧ (¬(truthy r.symptom = true ∧ truthy r.model_id = false) →
       ¬(truthy r.symptom = true ∧ truthy r.model_id = true ∧
         r.model_id_valid = false) →
      route r sess conf = Route.clarification conf) := by
  have hcond : (truthy r.part_id && r.part_id_valid && partLookupIntent r.intent)
      = false := by
    rw [Bool.eq_false_iff]
    intro hcontra
    simp only [Bool.and_eq_true, partLookupIntent_eq_true_iff] at hcontra
    exact hnp ⟨hcontra.1.1, hcontra.1.2, hcontra.2⟩
  have hth : conf < confidence_threshold := by
    simpa [confidence_threshold] using hconf
  refine ⟨?_, ?_, ?_⟩
  · intro hs hm
    simp only [route, hcond, Bool.false_eq_true, if_false, if_pos hth, hs, hm,
      Bool.not_false, Bool.and_true, if_true]
  · intro hs hm hvld
    refine ⟨?_, le_max_right _ _⟩
    simp only [route, hcond, Bool.false_eq_true, if_false, if_pos hth, hs, hm, hvld,
      Bool.not_true, Bool.and_false, Bool.not_false, Bool.and_true, if_true]
  · intro h1 h2
    have hb1 : (truthy r.symptom && !truthy r.model_id) = false := by
      cases hsy : truthy r.symptom <;> cases hmd : truthy r.model_id <;> simp_all
    have hb2 : (truthy r.symptom && truthy r.model_id && !r.model_id_valid)
        = false := by
      cases hsy : truthy r.symptom <;> cases hmd : truthy r.model_id <;>
        cases hvv : r.model_id_valid <;> simp_all
    simp only [route, hcond, Bool.false_eq_true, if_false, if_pos hth, hb1, hb2]

/-- Witness for C2 at concrete records: an unvalidated model `UNKNOWN123`
with a symptom and computed confidence 0.4 routes to the unvalidated
symptom handler at confidence 0.6. -/
theorem c2_below_threshold_branches_witness :
    route
      { intent := some "symptom_troubleshoot", symptom := some "ice maker not working",
        model_id := some "UNKNOWN123", model_id_valid := false }
      {} ((2:ℚ)/5) =
      Route.symptom_unvalidated "ice maker not working" "UNKNOWN123"
        (max ((2:ℚ)/5) (3/5))
    ∧ (3:ℚ)/5 ≤ max ((2:ℚ)/5) (3/5) :=
  (c2_below_threshold_branches
    { intent := some "symptom_troubleshoot", symptom := some "ice maker not working",
      model_id := some "UNKNOWN123", model_id_valid := false }
    {} ((2:ℚ)/5) (by norm_num) (by simp)).2.1
    (by decide) (by decide) (by decide)

end Agent

namespace Agent

theorem resolvePart_valid_sources {r : Resolved} {cand : Option String}
    {pre : Option PartData} {store : Store}
    (hbase : r.part_id_valid = false)
    (hv : (resolvePart r cand pre store).part_id_valid = true) :
    truthy cand = true ∧
    (resolvePart r cand pre store).part_id = some (upperStr (cand.getD "")) ∧
    (prefetchHit pre (upperStr (cand.getD "")) = true ∨
     (store.part_id_map.lookup (upperStr (cand.getD ""))).isSome = true) := by
  by_cases ht : truthy cand = true
  · by_cases hh : prefetchHit pre (upperStr (cand.getD "")) = true
    · rw [resolvePart_of_hit ht hh]
      exact ⟨ht, rfl, Or.inl hh⟩
    · simp only [Bool.not_eq_true] at hh
      by_cases hd : (startsWithPS (upperStr (cand.getD "")) &&
          (store.part_id_map.lookup (upperStr (cand.getD ""))).isSome) = true
      · rw [resolvePart_of_direct ht hh hd]
        exact ⟨ht, rfl, Or.inr ((Bool.and_eq_true _ _).mp hd).2⟩
      · simp only [Bool.not_eq_true] at hd
        rw [resolvePart_of_miss ht hh hd] at hv
        rw [hbase] at hv
        exact absurd hv (by simp)
  · simp only [Bool.not_eq_true] at ht
    rw [resolvePart_of_not_truthy ht] at hv
    rw [hbase] at hv
    exact absurd hv (by simp)

/-- C4 (`router.py` lines 331-341): `validate_and_resolve` (run with the
prefetches `handle_query` actually supplies, which are keyed on the regex
candidates and read from the part map) sets `part_id_valid = true` only
when the resolved part id is a key of the Reference Store part map —
whether validation went through the prefetch cache or the direct check. -/
theorem c4_part_valid_implies_store_lookup (plan : Plan) (cands : Candidates)
    (sess : Session) (q : String) (store : Store)
    (hv : (validate_and_resolve plan cands sess q (mkPrefetched store cands)
            store).part_id_valid = true) :
    ∃ p, (validate_and_resolve plan cands sess q (mkPrefetched store cands)
            store).part_id = some p
      ∧ (store.part_id_map.lookup p).isSome = true := by
  rw [validate_and_resolve, resolveModel_part_id_valid] at hv
  obtain ⟨ht, hpid, hsrc⟩ :=
    resolvePart_valid_sources (show (baseResolved plan).part_id_valid = false by simp [baseResolved]) hv
  refine ⟨upperStr ((candidatePartOf plan cands sess q).getD ""), ?_, ?_⟩
  · rw [validate_and_resolve, resolveModel_part_id]
    exact hpid
  · rcases hsrc with hh | hl
    · obtain ⟨rec, hpre, _⟩ := prefetchHit_eq_true hh
      obtain ⟨htc, hlook⟩ := prefetch_part_eq_some
        (by simpa [mkPrefetched] using hpre)
      have hcand : candidatePartOf plan cands sess q = cands.part_id := by
        unfold candidatePartOf
        exact pyOr_of_truthy htc
      rw [hcand, hlook]
      rfl
    · exact hl

/-- Witness for C4: with `PS11752778` in the store and as the extractor
candidate, validation succeeds and the resolved id is a store key. -/
theorem c4_part_valid_implies_store_lookup_witness :
    ∃ p, (validate_and_resolve
        { intent := some "part_lookup" } { part_id := some "PS11752778" }
        {} "need part PS11752778"
        (mkPrefetched
          { part_id_map := [("PS11752778", { part_id := "PS11752778" })],
            model_id_to_parts_map := [] }
          { part_id := some "PS11752778" })
        { part_id_map := [("PS11752778", { part_id := "PS11752778" })],
          model_id_to_parts_map := [] }).part_id = some p
      ∧ (List.lookup p
          [("PS11752778", ({ part_id := "PS11752778" } : PartData))]).isSome = true :=
  c4_part_valid_implies_store_lookup
    { intent := some "part_lookup" } { part_id := some "PS11752778" }
    {} "need part PS11752778"
    { part_id_map := [("PS11752778", { part_id := "PS11752778" })],
      model_id_to_parts_map := [] }
    (by decide)

end Agent

namespace Agent

/-- C5 (`router.py` lines 343-364): whenever a model-id candidate exists
(extractor, plan, or eligible session reuse — the `candidate_model`
chain), the resolved `model_id` is the uppercased candidate even when it
is absent from the model map; absence only leaves `model_id_valid = false`
(validity implies map membership), it never discards the id. -/
theorem c5_model_candidate_never_discarded (plan : Plan) (cands : Candidates)
    (sess : Session) (q : String) (store : Store) (m : String)
    (hm : candidateModelOf plan cands sess q = some m) (hne : m.data ≠ []) :
    (validate_and_resolve plan cands sess q (mkPrefetched store cands)
        store).model_id = some (upperStr m)
    ∧ ((validate_and_resolve plan cands sess q (mkPrefetched store cands)
          store).model_id_valid = true →
       (store.model_id_to_parts_map.lookup (upperStr m)).isSome = true) := by
  have ht : truthy (candidateModelOf plan cands sess q) = true := by
    rw [hm]
    simpa [truthy] using hne
  have hgd : (candidateModelOf plan cands sess q).getD "" = m := by
    rw [hm]
    rfl
  constructor
  · rw [validate_and_resolve, resolveModel_model_id_of_truthy ht, hgd]
  · intro hv
    rw [validate_and_resolve] at hv
    rcases resolveModel_valid_sources ht hv with ⟨hmi, hex⟩ | hl | hrv
    · have hmk : (mkPrefetched store cands).model_info
          = prefetch_model store cands.model_id := rfl
      rw [hmk] at hmi hex
      by_cases htc : truthy cands.model_id = true
      · have hcand : candidateModelOf plan cands sess q = cands.model_id := by
          unfold candidateModelOf
          exact pyOr_of_truthy htc
        rw [prefetch_model_of_truthy htc] at hex
        rw [← hgd, hcand]
        exact hex
      · simp only [Bool.not_eq_true] at htc
        rw [prefetch_model_of_not_truthy htc] at hmi
        exact absurd hmi (by simp)
    · rw [hgd] at hl
      exact hl
    · rw [resolvePart_model_id_valid] at hrv
      simp [baseResolved] at hrv

/-- Witness for C5: candidate `UNKNOWN123` absent from the model map is
retained uppercased with `model_id_valid = false`. -/
theorem c5_model_candidate_never_discarded_witness :
    (validate_and_resolve
        { intent := some "symptom_troubleshoot", symptom := some "leaking" }
        { model_id := some "UNKNOWN123" }
        {} "my UNKNOWN123 is leaking"
        (mkPrefetched
          { part_id_map := [],
            model_id_to_parts_map := [("WDT780SAEM1", ["PS11752778"])] }
          { model_id := some "UNKNOWN123" })
        { part_id_map := [],
          model_id_to_parts_map := [("WDT780SAEM1", ["PS11752778"])] }).model_id
      = some (upperStr "UNKNOWN123") :=
  (c5_model_candidate_never_discarded
    { intent := some "symptom_troubleshoot", symptom := some "leaking" }
    { model_id := some "UNKNOWN123" }
    {} "my UNKNOWN123 is leaking"
    { part_id_map := [],
      model_id_to_parts_map := [("WDT780SAEM1", ["PS11752778"])] }
    "UNKNOWN123" (by decide) (by decide)).1

/-- C10 (implicit, `router.py` lines 311-341): in every record returned by
`validate_and_resolve` (with the pipeline prefetches), `part_id` is
non-null exactly when `part_id_valid` is true, and a part candidate whose
uppercased form is not a key of the part map is dropped entirely — there
is no unvalidated-part state. -/
theorem c10_part_some_iff_valid (plan : Plan) (cands : Candidates)
    (sess : Session) (q : String) (store : Store) :
    ((validate_and_resolve plan cands sess q (mkPrefetched store cands)
        store).part_id.isSome
      = (validate_and_resolve plan cands sess q (mkPrefetched store cands)
          store).part_id_valid)
    ∧ (∀ c, candidatePartOf plan cands sess q = some c → c.data ≠ [] →
        store.part_id_map.lookup (upperStr c) = none →
        (validate_and_resolve plan cands sess q (mkPrefetched store cands)
          store).part_id = none) := by
  constructor
  · rw [validate_and_resolve, resolveModel_part_id, resolveModel_part_id_valid]
    rcases resolvePart_part_cases (baseResolved plan)
        (candidatePartOf plan cands sess q) (mkPrefetched store cands).part_data
        store with hc | ⟨_, hc⟩ <;> rw [hc] <;> simp [baseResolved]
  · intro c hcand hcne hlook
    rw [validate_and_resolve, resolveModel_part_id]
    have ht : truthy (candidatePartOf plan cands sess q) = true := by
      rw [hcand]
      simpa [truthy] using hcne
    have hgd : (candidatePartOf plan cands sess q).getD "" = c := by
      rw [hcand]
      rfl
    have hh : prefetchHit (mkPrefetched store cands).part_data
        (upperStr ((candidatePartOf plan cands sess q).getD "")) = false := by
      rw [Bool.eq_false_iff]
      intro hcontra
      obtain ⟨rec, hpre, _⟩ := prefetchHit_eq_true hcontra
      obtain ⟨htc, hlook2⟩ := prefetch_part_eq_some
        (by simpa [mkPrefetched] using hpre)
      have hcand2 : candidatePartOf plan cands sess q = cands.part_id := by
        unfold candidatePartOf
        exact pyOr_of_truthy htc
      rw [hcand2] at hgd
      rw [hgd] at hlook2
      rw [hlook2] at hlook
      exact absurd hlook (by simp)
    have hd : (startsWithPS (upperStr ((candidatePartOf plan cands sess q).getD "")) &&
        (store.part_id_map.lookup
          (upperStr ((candidatePartOf plan cands sess q).getD ""))).isSome) = false := by
      rw [hgd, hlook]
      simp
    rw [resolvePart_of_miss ht hh hd]
    simp [baseResolved]

/-- Witness for C10: candidate `PS99999` absent from the store is dropped,
leaving `part_id = none`. -/
theorem c10_part_some_iff_valid_witness :
    (validate_and_resolve
        { intent := some "part_lookup" } { part_id := some "PS99999" }
        {} "need part PS99999"
        (mkPrefetched
          { part_id_map := [("PS11752778", { part_id := "PS11752778" })],
            model_id_to_parts_map := [] }
          { part_id := some "PS99999" })
        { part_id_map := [("PS11752778", { part_id := "PS11752778" })],
          model_id_to_parts_map := [] }).part_id = none :=
  (c10_part_some_iff_valid
    { intent := some "part_lookup" } { part_id := some "PS99999" }
    {} "need part PS99999"
    { part_id_map := [("PS11752778", { part_id := "PS11752778" })],
      model_id_to_parts_map := [] }).2
    "PS99999" (by decide) (by decide) (by decide)

end Agent

namespace Agent

theorem lowerStr_data (s : String) : (lowerStr s).data = s.data.map Char.toLower := rfl

theorem lowerStr_ne_empty {s : String} (h : s.data ≠ []) : (lowerStr s).data ≠ [] := by
  simp [lowerStr_data]
  exact h

/-- C9 counterexample: with `session = {appliance: refrigerator,
last_symptom: "leaking water"}` and a turn resolving `appliance = oven`
(set, differing case-insensitively, no symptom), the claim demands that
the session retain no pre-drift field; but the scope guardrail rejects
`oven` before the drift check runs (router.py lines 203-228), so
`handle_query` returns early and the prior `last_symptom` survives. -/
theorem c9_drift_claim_counterexample :
    ({ appliance := some "refrigerator", last_symptom := some "leaking water" }
        : Session).appliance = some "refrigerator"
    ∧ ({ intent := some "general_question", appliance := some "oven" }
        : Resolved).appliance = some "oven"
    ∧ lowerStr "refrigerator" ≠ lowerStr "oven"
    ∧ ({ intent := some "general_question", appliance := some "oven" }
        : Resolved).symptom = none
    ∧ (sessionUpdate "my oven is leaking"
        { appliance := some "refrigerator", last_symptom := some "leaking water" }
        { intent := some "general_question", appliance := some "oven" }).last_symptom
        = some "leaking water" := by
  refine ⟨rfl, rfl, by decide, rfl, by decide⟩

/-- C9 as amended: when both appliances are set, differ case-insensitively,
and the new appliance passes the scope guardrail (it is one of the
supported types, so the turn reaches the drift check), `handle_query`
clears the whole session-entities record before merging the resolved
values of the turn — the post-turn session is exactly the merge into an empty
session, and in particular a prior `last_symptom` is gone unless the
current turn sets a symptom again. -/
theorem c9_drift_clears_session (q : String) (sess : Session) (r : Resolved)
    (a c : String)
    (hsa : sess.appliance = some a) (hca : r.appliance = some c)
    (hane : a.data ≠ []) (hcne : c.data ≠ [])
    (hdiff : lowerStr a ≠ lowerStr c)
    (hvalid : VALID_APPLIANCES.contains (lowerStr c) = true) :
    sessionUpdate q sess r = merge_state emptySession r
    ∧ (truthy r.symptom = false → (sessionUpdate q sess r).last_symptom = none) := by
  have htc : truthy (some c) = true := by
    simpa [truthy] using hcne
  have hsc : check_scope q r = true := by
    simp [check_scope, hca, htc]
    simpa using hvalid
  have hd : check_topic_drift sess r = true := by
    simp only [check_topic_drift, hsa, hca, Option.getD_some]
    have h1 := lowerStr_ne_empty hane
    simp [h1, hcne, bne_iff_ne, hdiff]
  have hupd : sessionUpdate q sess r = merge_state emptySession r := by
    simp only [sessionUpdate, hsc, if_true, hd]
  refine ⟨hupd, ?_⟩
  intro hsym
  rw [hupd]
  simp only [merge_state, hsym, Bool.false_eq_true, if_false]
  split_ifs <;> rfl

/-- Witness for the amended C9: a drift from refrigerator to dishwasher
(in scope) wipes the prior symptom. -/
theorem c9_drift_clears_session_witness :
    sessionUpdate "actually it is my dishwasher"
        { appliance := some "refrigerator", last_symptom := some "leaking water" }
        { intent := some "general_question", appliance := some "dishwasher" }
      = merge_state emptySession
          { intent := some "general_question", appliance := some "dishwasher" }
    ∧ (sessionUpdate "actually it is my dishwasher"
        { appliance := some "refrigerator", last_symptom := some "leaking water" }
        { intent := some "general_question", appliance := some "dishwasher" }).last_symptom
      = none :=
  ⟨(c9_drift_clears_session "actually it is my dishwasher"
      { appliance := some "refrigerator", last_symptom := some "leaking water" }
      { intent := some "general_question", appliance := some "dishwasher" }
      "refrigerator" "dishwasher" rfl rfl (by decide) (by decide) (by decide)
      (by decide)).1,
   (c9_drift_clears_session "actually it is my dishwasher"
      { appliance := some "refrigerator", last_symptom := some "leaking water" }
      { intent := some "general_question", appliance := some "dishwasher" }
      "refrigerator" "dishwasher" rfl rfl (by decide) (by decide) (by decide)
      (by decide)).2 (by decide)⟩

end Agent

namespace Agent

theorem find?_eq_some_decomp {α : Type} {f : α → Bool} {l : List α} {a : α}
    (h : l.find? f = some a) :
    ∃ l₁ l₂, l = l₁ ++ a :: l₂ ∧ f a = true ∧ ∀ x ∈ l₁, f x = false := by
  induction l with
  | nil => simp at h
  | cons x xs ih =>
    by_cases hx : f x = true
    · rw [List.find?_cons_of_pos _ hx] at h
      obtain rfl : x = a := by simpa using h
      exact ⟨[], xs, rfl, hx, by simp⟩
    · simp only [Bool.not_eq_true] at hx
      rw [List.find?_cons_of_neg _ (by simp [hx])] at h
      obtain ⟨l₁, l₂, hl, hfa, hall⟩ := ih h
      refine ⟨x :: l₁, l₂, by rw [hl]; rfl, hfa, ?_⟩
      intro y hy
      rcases List.mem_cons.mp hy with rfl | hy2
      · exact hx
      · exact hall y hy2

theorem isPartToken_eq_true_iff (t : List Char) :
    isPartToken t = true ↔
    ∃ ds, t = 'P' :: 'S' :: ds ∧ 5 ≤ ds.length ∧ ∀ ch ∈ ds, ch.isDigit = true := by
  cases t with
  | nil => simp [isPartToken]
  | cons c1 rest1 =>
    cases rest1 with
    | nil => simp [isPartToken]
    | cons c2 rest =>
      simp only [isPartToken, Bool.and_eq_true, beq_iff_eq, decide_eq_true_eq,
        List.all_eq_true]
      constructor
      · rintro ⟨⟨⟨h1, h2⟩, h3⟩, h4⟩
        exact ⟨rest, by rw [h1, h2], h3, h4⟩
      · rintro ⟨ds, heq, h3, h4⟩
        have h1 : c1 = 'P' := by injection heq
        have hrest : c2 :: rest = 'S' :: ds := by injection heq
        have h2 : c2 = 'S' := by injection hrest
        have h5 : rest = ds := by injection hrest
        subst h5
        exact ⟨⟨⟨h1, h2⟩, h3⟩, h4⟩

theorem isModelShape_eq_true_iff (t : List Char) :
    isModelShape t = true ↔
    6 ≤ t.length ∧ t.length ≤ 15 ∧ ∀ ch ∈ t, ch.isAlphanum = true := by
  simp [isModelShape, Bool.and_eq_true, decide_eq_true_eq, List.all_eq_true,
    and_assoc]

theorem extract_candidates_part_id (text : String) :
    (extract_candidates text).part_id =
      ((wordTokens (upperStr (stripStr text))).find? isPartToken).map
        (fun t => String.mk t) := rfl

theorem extract_candidates_model_id (text : String) :
    (extract_candidates text).model_id =
      (match (wordTokens (upperStr (stripStr text))).find? isModelShape with
       | some t =>
           if !startsWithPS (String.mk t) && !(t.all Char.isAlpha) then
             some (String.mk t)
           else none
       | none => none) := rfl

/-- C6 (`router.py` lines 276-297): `extract_candidates` is a total Lean
function of the input string (totality and determinism hold by
construction of the embedding; the Python regex layer raises on no input).
A non-null `part_id` is the first word-bounded `PS`-plus-five-or-more-
digits run of the uppercased text; a non-null `model_id` is the first
word-bounded 6-to-15-character alphanumeric run, and it neither starts
with `PS` nor is purely alphabetic; and when that first alphanumeric run
fails either condition, `model_id` is null (no later run is tried). -/
theorem c6_extract_candidates_first_match (text : String) :
    (∀ p, (extract_candidates text).part_id = some p →
      ∃ l₁ t l₂, wordTokens (upperStr (stripStr text)) = l₁ ++ t :: l₂
        ∧ p = String.mk t
        ∧ (∃ ds, t = 'P' :: 'S' :: ds ∧ 5 ≤ ds.length ∧ ∀ ch ∈ ds, ch.isDigit = true)
        ∧ ∀ u ∈ l₁,
            ¬∃ ds, u = 'P' :: 'S' :: ds ∧ 5 ≤ ds.length ∧ ∀ ch ∈ ds, ch.isDigit = true)
    ∧ (∀ m, (extract_candidates text).model_id = some m →
      ∃ l₁ t l₂, wordTokens (upperStr (stripStr text)) = l₁ ++ t :: l₂
        ∧ m = String.mk t
        ∧ 6 ≤ t.length ∧ t.length ≤ 15 ∧ (∀ ch ∈ t, ch.isAlphanum = true)
        ∧ startsWithPS (String.mk t) = false
        ∧ ¬(∀ ch ∈ t, ch.isAlpha = true)
        ∧ ∀ u ∈ l₁,
            ¬(6 ≤ u.length ∧ u.length ≤ 15 ∧ ∀ ch ∈ u, ch.isAlphanum = true))
    ∧ (∀ t, (wordTokens (upperStr (stripStr text))).find? isModelShape = some t →
        (startsWithPS (String.mk t) = true ∨ (∀ ch ∈ t, ch.isAlpha = true)) →
        (extract_candidates text).model_id = none) := by
  refine ⟨?_, ?_, ?_⟩
  · intro p hp
    rw [extract_candidates_part_id] at hp
    cases hfind : (wordTokens (upperStr (stripStr text))).find? isPartToken with
    | none => rw [hfind] at hp; exact absurd hp (by simp)
    | some t =>
    rw [hfind] at hp
    obtain rfl : p = String.mk t := by simpa using hp.symm
    obtain ⟨l₁, l₂, hsplit, hft, hearlier⟩ := find?_eq_some_decomp hfind
    refine ⟨l₁, t, l₂, hsplit, rfl, (isPartToken_eq_true_iff t).mp hft, ?_⟩
    intro u hu hcontra
    have := (isPartToken_eq_true_iff u).mpr hcontra
    rw [hearlier u hu] at this
    exact absurd this (by simp)
  · intro m hm
    rw [extract_candidates_model_id] at hm
    cases hfind : (wordTokens (upperStr (stripStr text))).find? isModelShape with
    | none => rw [hfind] at hm; exact absurd hm (by simp)
    | some t =>
      rw [hfind] at hm
      dsimp only at hm
      by_cases hcond : (!startsWithPS (String.mk t) && !(t.all Char.isAlpha)) = true
      · rw [if_pos hcond] at hm
        obtain rfl : m = String.mk t := by simpa using hm.symm
        obtain ⟨hps, hal⟩ := (Bool.and_eq_true _ _).mp hcond
        obtain ⟨l₁, l₂, hsplit, hft, hearlier⟩ := find?_eq_some_decomp hfind
        obtain ⟨hlen1, hlen2, hchars⟩ := (isModelShape_eq_true_iff t).mp hft
        refine ⟨l₁, t, l₂, hsplit, rfl, hlen1, hlen2, hchars, ?_, ?_, ?_⟩
        · simpa using hps
        · intro hcontra
          have : t.all Char.isAlpha = true := List.all_eq_true.mpr hcontra
          rw [this] at hal
          exact absurd hal (by simp)
        · intro u hu hcontra
          have := (isModelShape_eq_true_iff u).mpr
            ⟨hcontra.1, hcontra.2.1, hcontra.2.2⟩
          rw [hearlier u hu] at this
          exact absurd this (by simp)
      · rw [if_neg hcond] at hm
        exact absurd hm (by simp)
  · intro t hfind hbad
    rw [extract_candidates_model_id, hfind]
    dsimp only
    have hcond : (!startsWithPS (String.mk t) && !(t.all Char.isAlpha)) = false := by
      rcases hbad with hps | hal
      · simp [hps]
      · simp [List.all_eq_true.mpr hal]
    rw [if_neg (by simp [hcond])]

/-- Witness for C6 on `"fix WDT780SAEM1 with PS11752778"`: the part id is
the first PS-run and the model id is the first qualifying alphanumeric
run. -/
theorem c6_extract_candidates_first_match_witness :
    ∃ l₁ t l₂,
      wordTokens (upperStr (stripStr "fix WDT780SAEM1 with PS11752778"))
        = l₁ ++ t :: l₂
      ∧ "PS11752778" = String.mk t
      ∧ (∃ ds, t = 'P' :: 'S' :: ds ∧ 5 ≤ ds.length ∧ ∀ ch ∈ ds, ch.isDigit = true)
      ∧ ∀ u ∈ l₁,
          ¬∃ ds, u = 'P' :: 'S' :: ds ∧ 5 ≤ ds.length ∧ ∀ ch ∈ ds, ch.isDigit = true :=
  (c6_extract_candidates_first_match "fix WDT780SAEM1 with PS11752778").1
    "PS11752778" (by decide)

end Agent

namespace Agent

/-- C7 counterexample: when the classifier fails on the first call (planner.py
lines 173-178), the fallback plan is returned and nothing is cached, so a
second call with the same normalized input invokes the classifier again —
after two identical calls the invocation count is 2, not 1, contradicting
the claim that the second call happens "without invoking the external
classifier a second time". -/
theorem c7_cache_claim_counterexample :
    (plannerPlanStep (fun _ => Except.error "classifier unavailable")
      {} "same question").2.calls = 1
    ∧ (plannerPlanStep (fun _ => Except.error "classifier unavailable")
        (plannerPlanStep (fun _ => Except.error "classifier unavailable")
          {} "same question").2
        "same question").2.calls = 2 := by
  refine ⟨by decide, by decide⟩

/-- C7 as amended (`planner.py` lines 144-171): for every pair of calls
whose raw inputs (possibly different strings) have equal lowercased,
trimmed forms, provided the classifier-and-parse pipeline of the first
call succeeds and the cache then holds fewer than 1000 entries (so the
plan is actually inserted), the second call returns the identical plan
and the external classifier is not invoked again (the invocation count
does not grow).  Without those provisos the claim fails: failures return
the fallback plan uncached, and at capacity nothing is inserted. -/
theorem c7_cache_round_trip (classify : String → Except String Plan)
    (st : PlannerState) (input1 input2 : String) (p : Plan)
    (hkey : normalizeKey input1 = normalizeKey input2)
    (hok : classify input1 = Except.ok p)
    (hcap : st.cache.length < 1000) :
    (plannerPlanStep classify (plannerPlanStep classify st input1).2 input2).1
      = (plannerPlanStep classify st input1).1
    ∧ (plannerPlanStep classify (plannerPlanStep classify st input1).2 input2).2.calls
      = (plannerPlanStep classify st input1).2.calls := by
  cases hlook : st.cache.lookup (normalizeKey input1) with
  | some cached =>
    have h1 : plannerPlanStep classify st input1 = (cached, st) := by
      simp [plannerPlanStep, hlook]
    rw [h1]
    simp [plannerPlanStep, ← hkey, hlook]
  | none =>
    have h1 : plannerPlanStep classify st input1 =
        (p, { cache := (normalizeKey input1, p) :: st.cache, calls := st.calls + 1 }) := by
      simp [plannerPlanStep, hlook, hok, hcap]
    rw [h1]
    have hlook2 : ((normalizeKey input1, p) :: st.cache).lookup (normalizeKey input2)
        = some p := by
      rw [← hkey]
      simp [List.lookup]
    simp [plannerPlanStep, hlook2]

/-- Witness for the amended C7: the two raw inputs differ
(`"Need PS11752778"` then `" need ps11752778 "`) but share the lowercased,
trimmed form, and with a succeeding classifier on an empty cache the
second call returns the identical plan. -/
theorem c7_cache_round_trip_witness :
    (plannerPlanStep
        (fun _ => Except.ok { intent := some "part_lookup",
                              confidence := some ((19:ℚ)/20) })
        (plannerPlanStep
          (fun _ => Except.ok { intent := some "part_lookup",
                                confidence := some ((19:ℚ)/20) })
          {} "Need PS11752778").2
        " need ps11752778 ").1
      = (plannerPlanStep
          (fun _ => Except.ok { intent := some "part_lookup",
                                confidence := some ((19:ℚ)/20) })
          {} "Need PS11752778").1 :=
  (c7_cache_round_trip
    (fun _ => Except.ok { intent := some "part_lookup",
                          confidence := some ((19:ℚ)/20) })
    {} "Need PS11752778" " need ps11752778 "
    { intent := some "part_lookup", confidence := some ((19:ℚ)/20) }
    (by decide) rfl (by decide)).1

end Agent

namespace Agent

/-- C8 (`planner.py` lines 155-178 and 277-310): `plan` never propagates a
classifier or parse/validate failure — on any such failure (with a cache
miss, the only case in which the classifier runs) it returns exactly the
deterministic fallback plan: intent `part_lookup` at confidence 0.55
carrying the first word-bounded part-id run when the input contains one,
otherwise intent `general_question` at confidence 0.3 with no part id;
and a model id is kept only when the first word-bounded 6-to-15-character
alphanumeric run is not a part id (`PS` start) and not purely alphabetic. -/
theorem c8_plan_failure_fallback (classify : String → Except String Plan)
    (st : PlannerState) (input : String) (err : String)
    (hmiss : st.cache.lookup (normalizeKey input) = none)
    (hfail : classify input = Except.error err) :
    (plannerPlanStep classify st input).1 = fallback_plan input
    ∧ ((∃ t ∈ wordTokens (upperStr (stripStr input)), isPartToken t = true) →
        (fallback_plan input).intent = some "part_lookup"
        ∧ (fallback_plan input).confidence = some ((11:ℚ)/20)
        ∧ ∃ t, (fallback_plan input).part_id = some (String.mk t)
            ∧ isPartToken t = true)
    ∧ (¬(∃ t ∈ wordTokens (upperStr (stripStr input)), isPartToken t = true) →
        (fallback_plan input).intent = some "general_question"
        ∧ (fallback_plan input).confidence = some ((3:ℚ)/10)
        ∧ (fallback_plan input).part_id = none)
    ∧ (∀ s, (fallback_plan input).model_id = some s →
        ∃ t, (wordTokens (upperStr (stripStr input))).find? isModelShape = some t
          ∧ s = String.mk t
          ∧ startsWithPS s = false
          ∧ ¬(∀ ch ∈ t, ch.isAlpha = true)) := by
  refine ⟨?_, ?_, ?_, ?_⟩
  · simp [plannerPlanStep, hmiss, hfail]
  · intro hex
    obtain ⟨u, hu⟩ : ∃ u,
        (wordTokens (upperStr (stripStr input))).find? isPartToken = some u := by
      rw [← Option.isSome_iff_exists, List.find?_isSome]
      exact hex
    refine ⟨?_, ?_, u, ?_, List.find?_some hu⟩ <;>
      simp only [fallback_plan, hu]
  · intro hnone
    have hfind : (wordTokens (upperStr (stripStr input))).find? isPartToken
        = none := by
      rw [List.find?_eq_none]
      intro x hx
      simp only [Bool.not_eq_true]
      by_contra hc
      exact hnone ⟨x, hx, by simpa using hc⟩
    refine ⟨?_, ?_, ?_⟩ <;> simp only [fallback_plan, hfind]
  · intro s hs
    have hmid : (fallback_plan input).model_id = fallback_model_id input := by
      simp only [fallback_plan]
      cases (wordTokens (upperStr (stripStr input))).find? isPartToken <;> rfl
    rw [hmid] at hs
    unfold fallback_model_id at hs
    cases hfindm : (wordTokens (upperStr (stripStr input))).find? isModelShape with
    | none => rw [hfindm] at hs; exact absurd hs (by simp)
    | some t =>
      rw [hfindm] at hs
      dsimp only at hs
      by_cases hcond : (!startsWithPS (String.mk t) && !(t.all Char.isAlpha)) = true
      · rw [if_pos hcond] at hs
        obtain rfl : s = String.mk t := by simpa using hs.symm
        obtain ⟨hps, hal⟩ := (Bool.and_eq_true _ _).mp hcond
        refine ⟨t, rfl, rfl, by simpa using hps, ?_⟩
        intro hcontra
        have : t.all Char.isAlpha = true := List.all_eq_true.mpr hcontra
        rw [this] at hal
        exact absurd hal (by simp)
      · rw [if_neg hcond] at hs
        exact absurd hs (by simp)

/-- Witness for C8: a failing classifier on input containing `PS11752778`
yields the part-lookup fallback at 0.55. -/
theorem c8_plan_failure_fallback_witness :
    (plannerPlanStep (fun _ => Except.error "timeout") {}
        "please help with PS11752778").1
      = fallback_plan "please help with PS11752778"
    ∧ (fallback_plan "please help with PS11752778").intent = some "part_lookup"
    ∧ (fallback_plan "please help with PS11752778").confidence
      = some ((11:ℚ)/20) :=
  ⟨(c8_plan_failure_fallback (fun _ => Except.error "timeout") {}
      "please help with PS11752778" "timeout" (by decide) rfl).1,
   ((c8_plan_failure_fallback (fun _ => Except.error "timeout") {}
      "please help with PS11752778" "timeout" (by decide) rfl).2.1
      (by decide)).1,
   ((c8_plan_failure_fallback (fun _ => Except.error "timeout") {}
      "please help with PS11752778" "timeout" (by decide) rfl).2.1
      (by decide)).2.1⟩

end Agent
